import Mathlib

/-!
Verification of the filter/aggregate/query layer of the two dashboard
applications in this repository (the ride-hailing dashboard in
`OLA Data Analysis/app.py` and the video-game dashboard in the
Streamlit + Power BI folder's `app.py`).

Tables are modelled as ordered column-name lists plus rows of
(column, cell) pairs; cells are strings, exact rationals (standing in for
the floats the programs manipulate), or `null` (pandas NaN/NaT/None).
Fallible pandas operations (column access on a missing column, reading a
missing file) are modelled with `Except`.
-/

/-- A cell of a data table: a string, a numeric value (exact rational in
place of a float), or a missing value (pandas NaN/NaT/None). -/
inductive Value where
  | str (s : String)
  | num (q : Rat)
  | null
  deriving DecidableEq

/-- Value of a decimal digit character, if it is one. -/
def charDigit (c : Char) : Option Nat :=
  if c.isDigit then some (c.toNat - 48) else none

/-- Read a possibly-empty run of decimal digits as a number; `none` when a
non-digit occurs. The empty list reads as 0. -/
def digitsOpt (cs : List Char) : Option Nat :=
  cs.foldl
    (fun acc c =>
      match acc, charDigit c with
      | some a, some d => some (a * 10 + d)
      | _, _ => none)
    (some 0)

/-- ASCII lowering of one character (the datasets' headers are ASCII). -/
def lowerChar (c : Char) : Char :=
  if 65 ≤ c.toNat && c.toNat ≤ 90 then Char.ofNat (c.toNat + 32) else c

/-- `s.lower()`. -/
def lowerStr (s : String) : String :=
  ⟨s.data.map lowerChar⟩

/-- `s.strip()`: drop whitespace from both ends. -/
def strTrim (s : String) : String :=
  ⟨((s.data.dropWhile Char.isWhitespace).reverse.dropWhile Char.isWhitespace).reverse⟩

/-- Model of the lenient numeric parse performed by `pd.to_numeric`:
an optional sign, digits, an optional decimal point and fractional digits
(scientific notation is not modelled; none of the datasets use it). -/
def parseNum (s : String) : Option Rat :=
  let cs := (strTrim s).data
  let sgn : Rat := match cs with
    | c :: _ => if c = '-' then -1 else 1
    | [] => 1
  let cs := match cs with
    | c :: rest => if c = '-' then rest else cs
    | [] => cs
  let intPart := cs.takeWhile (fun c => c.isDigit)
  match cs.drop intPart.length with
  | [] =>
    if intPart.isEmpty then none
    else (digitsOpt intPart).map (fun n => sgn * (n : Rat))
  | dot :: frac =>
    if dot == '.' && (frac.all (fun c => c.isDigit) && !(intPart.isEmpty && frac.isEmpty)) then
      match digitsOpt intPart, digitsOpt frac with
      | some n, some f =>
        some (sgn * ((n : Rat) + (f : Rat) / ((10 : Rat) ^ frac.length)))
      | _, _ => none
    else none

/-- Numeric reading of a cell, as `pd.to_numeric(..., errors="coerce")`
sees it: numbers stay, numeric strings parse, everything else is missing. -/
def toNum (v : Value) : Option Rat :=
  match v with
  | .num q => some q
  | .str s => parseNum s
  | .null => none

/-- Rendering of a cell by pandas `.astype(str)`: the crucial case is that
a missing value renders as the three-letter string "nan". -/
def pyStr (v : Value) : String :=
  match v with
  | .str s => s
  | .num q => toString q
  | .null => "nan"

/-- Is `pat` a prefix of `l`? -/
def isPrefixB (pat l : List Char) : Bool :=
  match pat, l with
  | [], _ => true
  | _ :: _, [] => false
  | p :: ps, x :: xs => p == x && isPrefixB ps xs

/-- Does `pat` occur as a contiguous run inside `l`? -/
def isInfixB (pat l : List Char) : Bool :=
  isPrefixB pat l ||
    match l with
    | [] => false
    | _ :: xs => isInfixB pat xs

/-- Substring test on strings (`pat` occurs inside `s`). -/
def strContains (s pat : String) : Bool :=
  isInfixB pat.data s.data

/-- `s.startswith(pre)`. -/
def strStartsWith (s pre : String) : Bool :=
  isPrefixB pre.data s.data

/-- `s.endswith(suf)`. -/
def strEndsWith (s suf : String) : Bool :=
  isPrefixB suf.data.reverse s.data.reverse

/-- Case-insensitive substring containment; models
`Series.str.contains(pat, case=False)` for patterns that contain no
regular-expression metacharacters (all patterns in the claims are such). -/
def containsCI (s pat : String) : Bool :=
  strContains (lowerStr s) (lowerStr pat)

/-- Is the string free of regular-expression metacharacters, so that
`str.contains` (which treats its pattern as a regex) agrees with literal
substring search? -/
def regexFree (s : String) : Bool :=
  s.data.all (fun c => !(([46, 94, 36, 42, 43, 63, 123, 125, 91, 93, 40, 41, 124, 92] : List Nat).contains c.toNat))

/-- A row: cells keyed by column name, in column order. -/
abbrev Row := List (String × Value)

/-- A data frame: ordered column names and rows. -/
structure Table where
  cols : List String
  rows : List Row
  deriving DecidableEq

/-- Cell of a row in a given column (missing entries read as null). -/
def getCell (r : Row) (c : String) : Value :=
  (r.lookup c).getD Value.null

/-- `df.empty`: a frame with zero rows or zero columns. -/
def Table.isEmpty (t : Table) : Bool :=
  t.rows.isEmpty || t.cols.isEmpty

/-- Boolean-mask row selection `df[mask]`: keep the rows satisfying `p`. -/
def rowFilter (t : Table) (p : Row → Bool) : Table :=
  ⟨t.cols, t.rows.filter p⟩

/-! ### Column resolver (video-game app, lines 78-82 and 129)

Each role is the first column, in original order, whose header satisfies a
fixed case-insensitive predicate. -/

/-- Header predicate for the platform role: lowercased name starts with
"platform". -/
def platformPred (c : String) : Bool :=
  strStartsWith (lowerStr c) ("platform")

/-- Header predicate for the genre role: lowercased name contains "genre". -/
def genrePred (c : String) : Bool :=
  strContains (lowerStr c) ("genre")

/-- Header predicate for the title role: lowercased name starts with
"title" or with "name". -/
def titlePred (c : String) : Bool :=
  strStartsWith (lowerStr c) ("title") || strStartsWith (lowerStr c) ("name")

/-- Header predicate for the rating role: lowercased name equals "rating". -/
def ratingPred (c : String) : Bool :=
  lowerStr c == "rating"

/-- Header predicate for the global-sales role: lowercased name contains
both "global" and "sales". -/
def globalSalesPred (c : String) : Bool :=
  strContains (lowerStr c) ("global") && strContains (lowerStr c) ("sales")

/-- Header predicate for the year role: lowercased name equals "year", or
contains "year" and does not contain "sales" (Python operator precedence:
`a or b and c` is `a or (b and c)`). -/
def yearPred (c : String) : Bool :=
  lowerStr c == "year" || (strContains (lowerStr c) ("year") && !strContains (lowerStr c) ("sales"))

/-- `platform_col = next((c for c in df.columns if c.lower().startswith("platform")), None)` -/
def platformCol (cols : List String) : Option String :=
  cols.find? platformPred

/-- `genre_col = next((c for c in df.columns if "genre" in c.lower()), None)` -/
def genreCol (cols : List String) : Option String :=
  cols.find? genrePred

/-- `title_col = next((c for c in df.columns if c.lower().startswith("title") or c.lower().startswith("name")), None)` -/
def titleCol (cols : List String) : Option String :=
  cols.find? titlePred

/-- `rating_col = next((c for c in df.columns if c.lower() == "rating"), None)` -/
def ratingCol (cols : List String) : Option String :=
  cols.find? ratingPred

/-- `global_sales_col = next((c for c in df.columns if "global" in c.lower() and "sales" in c.lower()), None)` -/
def globalSalesCol (cols : List String) : Option String :=
  cols.find? globalSalesPred

/-- `year_col` (line 129). -/
def yearCol (cols : List String) : Option String :=
  cols.find? yearPred

/-- The full role map of the video-game app. -/
structure RoleMap where
  platform : Option String
  genre : Option String
  title : Option String
  rating : Option String
  globalSales : Option String
  year : Option String
  deriving DecidableEq

/-- Resolve all six roles from the column headers alone. -/
def resolveRoles (cols : List String) : RoleMap :=
  ⟨platformCol cols, genreCol cols, titleCol cols, ratingCol cols,
   globalSalesCol cols, yearCol cols⟩

/-! ### Sidebar filter application, video-game app (lines 93-102) -/

/-- The sidebar filter state of the video-game app: selected platforms and
genres (empty list = nothing selected), the min-rating slider (default 0.0)
and the title search string (default empty). -/
structure VGSpec where
  platforms : List Value
  genres : List Value
  minRating : Rat
  search : String
  deriving DecidableEq

/-- The all-empty filter specification (every widget at its default). -/
def emptyVGSpec : VGSpec := ⟨[], [], 0, ""⟩

/-- One cell after `pd.to_numeric(..., errors="coerce")`: numbers survive,
parseable strings become numbers, anything else becomes missing. -/
def coerceVal (v : Value) : Value :=
  match toNum v with
  | some q => .num q
  | none => .null

/-- Column assignment `t[c] = f(t[c])`: rewrite every cell of column `c`
through `f`, all other columns untouched. -/
def mapColumn (t : Table) (c : String) (f : Value → Value) : Table :=
  ⟨t.cols, t.rows.map (fun r => r.map (fun kv => if kv.1 = c then (kv.1, f kv.2) else kv))⟩

/-- `filtered[c] = pd.to_numeric(filtered[c], errors="coerce")`. -/
def coerceCol (t : Table) (c : String) : Table :=
  mapColumn t c coerceVal

/-- `.fillna(0)` reading of a (coerced) cell for the rating threshold. -/
def fillna0 (v : Value) : Rat :=
  match v with
  | .num q => q
  | _ => 0

/-- Lines 93-102 of the video-game app: start from a copy of `df`, then
apply the platform membership filter, the genre membership filter, the
rating coercion + threshold filter, and the title substring filter, each
guarded exactly as in the source (`if platform_col and selected_platforms:`
etc.). -/
def applyVG (df : Table) (spec : VGSpec) : Table :=
  let f1 :=
    match platformCol df.cols, spec.platforms with
    | some c, _ :: _ => rowFilter df (fun r => spec.platforms.contains (getCell r c))
    | _, _ => df
  let f2 :=
    match genreCol df.cols, spec.genres with
    | some c, _ :: _ => rowFilter f1 (fun r => spec.genres.contains (getCell r c))
    | _, _ => f1
  let f3 :=
    match ratingCol df.cols with
    | some c =>
      rowFilter (coerceCol f2 c) (fun r => decide (spec.minRating ≤ fillna0 (getCell r c)))
    | none => f2
  match spec.search == "", titleCol df.cols with
  | false, some c => rowFilter f3 (fun r => containsCI (pyStr (getCell r c)) spec.search)
  | _, _ => f3

/-! ### Filter application, ride-hailing app Dashboard page (lines 37-43) -/

/-- One `if selection: filtered = filtered[filtered[c].isin(selection)]`
stage; accessing a missing column is a pandas `KeyError`. -/
def isinStage (t : Table) (c : String) (sel : List Value) : Except String Table :=
  if sel.isEmpty then .ok t
  else if t.cols.contains c then
    .ok (rowFilter t (fun r => sel.contains (getCell r c)))
  else .error ("KeyError")

/-- Lines 37-43 of the ride-hailing app: a copy of `df` put through the
vehicle-type, payment-method and booking-status membership filters. -/
def olaFilter (df : Table) (vehicle payment status : List Value) : Except String Table :=
  (isinStage df ("Vehicle_Type") vehicle).bind (fun t1 =>
    (isinStage t1 ("Payment_Method") payment).bind (fun t2 =>
      isinStage t2 ("Booking_Status") status))

/-! ### Sorting (model of `sort_values` / `nlargest`)

`insertBy`/`isortBy` is a stable sort parameterised by a strict
"must come before" predicate; equal elements keep their original order. -/

/-- Insert `x` into `l`, moving it past exactly the elements that are
strictly before it under `b`; when neither is strictly before the other the
earlier element stays first, which makes the fold below a stable sort. -/
def insertBy (b : α → α → Bool) (x : α) : List α → List α
  | [] => [x]
  | y :: ys => if b y x then y :: insertBy b x ys else x :: y :: ys

/-- Stable sort by the strict precedence predicate `b`
(`b u v` = `u` must come strictly before `v`). -/
def isortBy (b : α → α → Bool) : List α → List α
  | [] => []
  | x :: xs => insertBy b x (isortBy b xs)

/-- Numeric sort rank of a cell: only genuine numbers carry a rank; missing
(and non-numeric) cells have none and are placed last by a descending sort,
matching pandas `na_position="last"`. -/
def rankOf (v : Value) : Option Rat :=
  match v with
  | .num q => some q
  | _ => none

/-- Strict precedence for a descending numeric sort with missing values
last: a larger number, or any number against a missing value. -/
def numBefore (a c : Option Rat) : Bool :=
  match a, c with
  | some x, some y => decide (y < x)
  | some _, none => true
  | none, _ => false

/-- Row precedence for `sort_values(by=c, ascending=False)`. -/
def rowBefore (c : String) (r1 r2 : Row) : Bool :=
  numBefore (rankOf (getCell r1 c)) (rankOf (getCell r2 c))

/-- `t.sort_values(by=c, ascending=False)`. pandas' default sort kind is
quicksort, whose ordering among tied keys is unspecified (only mergesort
is stable); this model realises one concrete descending order via
`isortBy`, and no theorem about `sort_values` below relies on the tie
order the model happens to produce — only on the length, the
descending-by-key shape and the fact that the rows are a permutation of
the input, which every `sort_values` result satisfies. -/
def sortValuesDesc (t : Table) (c : String) : Table :=
  ⟨t.cols, isortBy (rowBefore c) t.rows⟩

/-- `t.head(n)`. -/
def headT (n : Nat) (t : Table) : Table :=
  ⟨t.cols, t.rows.take n⟩

/-- Video-game app, lines 138-139 (tab1 "Top Global Sellers"): when a
global-sales column resolved, sort the filtered table descending by it and
keep the first ten rows; otherwise an informational notice is shown
(modelled as `none`). The subsequent two-column display selection and
renaming is presentational. -/
def topGlobalSellers (t : Table) : Option Table :=
  match globalSalesCol t.cols with
  | some c => some (headT 10 (sortValuesDesc t c))
  | none => none

/-- `t.nlargest(n, c)`: pandas first drops rows whose `c` cell is missing,
then takes the `n` largest, earlier rows first among ties (keep="first"). -/
def nlargestT (t : Table) (n : Nat) (c : String) : Except String Table :=
  if t.cols.contains c then
    .ok ⟨t.cols, (isortBy (rowBefore c) (t.rows.filter (fun r => (rankOf (getCell r c)).isSome))).take n⟩
  else .error ("KeyError")

/-! ### Group-by helpers -/

/-- Keep the first occurrence of each element. -/
def dedupFirst (l : List Value) : List Value :=
  l.foldl (fun acc v => if acc.contains v then acc else acc ++ [v]) []

/-- Lexicographic strict order on character lists. -/
def charListLt : List Char → List Char → Bool
  | _, [] => false
  | [], _ :: _ => true
  | c :: cs, d :: ds => decide (c < d) || (c == d && charListLt cs ds)

/-- Strict order on cells used to sort group keys ascending (pandas
`groupby(..., sort=True)`); keys of one group column are homogeneous in the
datasets, so only the same-constructor cases matter. -/
def valueBefore (a b : Value) : Bool :=
  match a, b with
  | .num x, .num y => decide (x < y)
  | .str s, .str t => charListLt s.data t.data
  | .num _, .str _ => true
  | _, _ => false

/-- The group keys of `t.groupby(c)`: distinct non-missing values of column
`c` (pandas `dropna=True`), sorted ascending. -/
def groupKeys (t : Table) (c : String) : List Value :=
  isortBy valueBefore (dedupFirst ((t.rows.map (fun r => getCell r c)).filter (fun v => !(v == Value.null))))

/-- The rows of the group with key `k`. -/
def groupRows (t : Table) (c : String) (k : Value) : List Row :=
  t.rows.filter (fun r => getCell r c == k)

/-- `t.groupby(c)[vcol].sum()` for the group `k` (missing values skipped,
empty group sums to 0). -/
def groupSum (t : Table) (c vcol : String) (k : Value) : Rat :=
  ((groupRows t c k).filterMap (fun r => toNum (getCell r vcol))).sum

/-- `t.groupby(c)[vcol].mean()` for the group `k` (`none` = NaN when the
group has no non-missing value). -/
def groupMean (t : Table) (c vcol : String) (k : Value) : Option Rat :=
  let vs := (groupRows t c k).filterMap (fun r => toNum (getCell r vcol))
  if vs.isEmpty then none else some (vs.sum / (vs.length : Rat))

/-- `t.groupby(c).size()` for the group `k`. -/
def groupSize (t : Table) (c : String) (k : Value) : Nat :=
  (groupRows t c k).length

/-- Ride-hailing app, lines 74-78: group by pickup location, sum booking
values, keep the ten largest sums (`Series.nlargest`, stable, no missing
sums to drop), and present as a two-column table. -/
def revenueByPickup (df : Table) : Except String Table :=
  if df.cols.contains ("Pickup_Location") && df.cols.contains ("Booking_Value") then
    let series := (groupKeys df ("Pickup_Location")).map
      (fun k => (k, groupSum df ("Pickup_Location") ("Booking_Value") k))
    let top := (isortBy (fun a b : Value × Rat => decide (b.2 < a.2)) series).take 10
    .ok ⟨[("Pickup_Location" : String), ("Revenue" : String)],
      top.map (fun kv => [(("Pickup_Location" : String), kv.1), (("Revenue" : String), Value.num kv.2)])⟩
  else .error ("KeyError")

/-! ### KPI summariser -/

/-- Python `round(x, 2)` uses round-half-to-even; the integer part of that
rounding for `x * 100`. -/
def halfEven (x : Rat) : Int :=
  let n := ⌊x⌋
  let r := x - (n : Rat)
  if r < 1 / 2 then n
  else if 1 / 2 < r then n + 1
  else if n % 2 = 0 then n else n + 1

/-- Python `round(x, 2)` (banker's rounding to two decimal places). -/
def pyRound2 (x : Rat) : Rat :=
  ((halfEven (x * 100) : Int) : Rat) / 100

/-- `total_rides = len(filtered_df)` (ride-hailing app, line 46). -/
def totalRides (t : Table) : Nat :=
  t.rows.length

/-- `success_rides = len(filtered_df[filtered_df["Booking_Status"] == "Success"])` (line 47). -/
def successRides (t : Table) : Nat :=
  (t.rows.filter (fun r => getCell r ("Booking_Status") == Value.str "Success")).length

/-- `success_rate = round((success_rides / total_rides) * 100, 2) if total_rides > 0 else 0` (line 48). -/
def successRate (t : Table) : Rat :=
  if 0 < totalRides t then
    pyRound2 (((successRides t : Rat) / (totalRides t : Rat)) * 100)
  else 0

/-- `Series.sum()` of a column: missing values skipped, empty sum is 0. -/
def sumColumn (t : Table) (c : String) : Rat :=
  (t.rows.filterMap (fun r => toNum (getCell r c))).sum

/-- `total_revenue = filtered_df["Booking_Value"].sum()` (line 49). -/
def totalRevenue (t : Table) : Rat :=
  sumColumn t ("Booking_Value")

/-- `Series.mean()` of a column: `none` models the NaN produced when no
non-missing value exists (in particular on zero rows). -/
def meanColumn (t : Table) (c : String) : Option Rat :=
  let vs := t.rows.filterMap (fun r => toNum (getCell r c))
  if vs.isEmpty then none else some (vs.sum / (vs.length : Rat))

/-- `avg_fare = round(filtered_df["Booking_Value"].mean(), 2)` (line 50);
`round` maps NaN to NaN, hence `Option.map`. -/
def avgFare (t : Table) : Option Rat :=
  (meanColumn t ("Booking_Value")).map pyRound2

/-- Video-game app, line 108:
`total_sales = filtered[global_sales_col].sum() if global_sales_col in filtered.columns else 0`
(filtering never changes the column list, so the role is resolved over the
same headers). -/
def vgTotalSales (t : Table) : Rat :=
  match globalSalesCol t.cols with
  | some c => if t.cols.contains c then sumColumn t c else 0
  | none => 0

/-! ### Loaders and application boundary -/

/-- Outcome of running an application boundary: it rendered with a loaded
table, halted with a data notice, or died on an unhandled exception. -/
inductive AppOutcome where
  | ran (t : Table)
  | halted
  | crashed (e : String)
  deriving DecidableEq

/-- `df.columns = [c.strip() for c in df.columns]`. -/
def stripCols (t : Table) : Table :=
  ⟨t.cols.map (fun c => strTrim c), t.rows.map (fun r => r.map (fun kv => (strTrim kv.1, kv.2)))⟩

/-- Does a string look like a date (`YYYY-MM-DD`, optionally followed by a
time)? A simple stand-in for the lenient `pd.to_datetime` parser. -/
def isDateLike (s : String) : Bool :=
  match (s.trim.splitOn (" ")).head? with
  | some d =>
    match d.splitOn ("-") with
    | [y, m, dd] =>
      !(y.isEmpty || m.isEmpty || dd.isEmpty) &&
        ((digitsOpt y.data).isSome && (digitsOpt m.data).isSome && (digitsOpt dd.data).isSome)
    | _ => false
  | none => false

/-- One cell under `pd.to_datetime(..., errors="coerce")`: parseable dates
kept (as their trimmed text), numbers pass through (epoch offsets),
unparseable strings and missing values become NaT (`null`). -/
def toDatetimeVal (v : Value) : Value :=
  match v with
  | .str s => if isDateLike s then .str (strTrim s) else .null
  | .num q => .num q
  | .null => .null

/-- A data source on disk: absent, present and parseable (with its
contents), or present but failing to parse or read (carrying the name of
the exception pandas/sqlite raises, e.g. `EmptyDataError` for a zero-byte
CSV or `UnicodeDecodeError` for invalid encoding). -/
inductive Source (β : Type) where
  | absent
  | parsed (contents : β)
  | unparseable (e : String)

/-- `pd.read_csv(path) if path.exists() else pd.DataFrame()` (video-game
app, lines 60 and 63): a missing file yields the empty frame without
touching `read_csv`; a present file either parses or raises. -/
def readCsvIfExists (src : Source Table) : Except String Table :=
  match src with
  | .absent => .ok ⟨[], []⟩
  | .parsed t => .ok t
  | .unparseable e => .error e

/-- Ride-hailing app `load_data` (lines 12-16): read the CSV with no
existence check (a missing file is an uncaught `FileNotFoundError`, an
unparseable one raises its parse error), coerce the `Date` column (a
`KeyError` if absent), then strip the column names. -/
def olaLoadData (csvFile : Source Table) : Except String Table :=
  match csvFile with
  | .absent => .error ("FileNotFoundError")
  | .unparseable e => .error e
  | .parsed raw =>
    if raw.cols.contains ("Date") then
      .ok (stripCols (mapColumn raw ("Date") toDatetimeVal))
    else .error ("KeyError")

/-- The ride-hailing app boundary: `df = load_data()` with no handler, so a
loader exception crashes the app. -/
def olaMain (csvFile : Source Table) : AppOutcome :=
  match olaLoadData csvFile with
  | .error e => .crashed e
  | .ok t => .ran t

/-- The data sources the video-game loader may find: a SQLite database
(its named tables when it opens and reads) and a CSV file, each possibly
absent or present-but-unreadable. -/
structure VGEnv where
  db : Source (List (String × Table))
  csv : Source Table

/-- `s.toLower.trim`, the join-key normalisation
`.astype(str).str.lower().str.strip()`. -/
def lowerTrim (s : String) : String :=
  strTrim (lowerStr s)

/-- `t[newName] = t[src].astype(str).str.lower().str.strip()` (adds the
normalised join-key column). -/
def addKeyCol (t : Table) (src newName : String) : Table :=
  ⟨t.cols ++ [newName],
   t.rows.map (fun r => r ++ [(newName, Value.str (lowerTrim (pyStr (getCell r src))))])⟩

/-- Best-effort outer merge of the `games` and `sales` tables on the
normalised title/name key, with `_games`/`_sales` suffixes on overlapping
column names (video-game app, lines 49-56); accessing the `Title`/`Name`
key columns raises when absent. -/
def mergeGamesSales (g s : Table) : Except String Table :=
  if g.cols.contains ("Title") && s.cols.contains ("Name") then
    let g1 := addKeyCol g ("Title") ("title_lc")
    let s1 := addKeyCol s ("Name") ("name_lc")
    let overlap := g1.cols.filter (fun c => s1.cols.contains c)
    let renameG := fun (c : String) => if overlap.contains c then c ++ "_games" else c
    let renameS := fun (c : String) => if overlap.contains c then c ++ "_sales" else c
    let gcols := g1.cols.map renameG
    let scols := s1.cols.map renameS
    let leftPart := g1.rows.map (fun gr =>
      let ms := s1.rows.filter (fun sr => getCell sr ("name_lc") == getCell gr ("title_lc"))
      let grR := gr.map (fun kv => (renameG kv.1, kv.2))
      if ms.isEmpty then [grR ++ scols.map (fun c => (c, Value.null))]
      else ms.map (fun sr => grR ++ sr.map (fun kv => (renameS kv.1, kv.2))))
    let rightPart := (s1.rows.filter
        (fun sr => !(g1.rows.any (fun gr => getCell sr ("name_lc") == getCell gr ("title_lc"))))).map
      (fun sr => gcols.map (fun c => (c, Value.null)) ++ sr.map (fun kv => (renameS kv.1, kv.2)))
    .ok ⟨gcols ++ scols, leftPart.flatten ++ rightPart⟩
  else .error ("KeyError")

/-- Video-game app `load_data` (lines 34-67): when the database file
exists, read it (reading a corrupt database raises, uncaught) and prefer
the `merged` table, then `video_game_data`, then a best-effort merge of
`games` and `sales`, then the CSV; when the database is absent, fall back
to the CSV — which yields the explicitly empty frame only when the CSV
file does not exist, and raises uncaught when it exists but fails to
parse (lines 60 and 63 guard only existence, not parseability); finally
strip column names. -/
def vgLoadData (env : VGEnv) : Except String Table :=
  let base : Except String Table :=
    match env.db with
    | .parsed tabs =>
      match tabs.lookup ("merged") with
      | some m => .ok m
      | none =>
        match tabs.lookup ("video_game_data") with
        | some m => .ok m
        | none =>
          match tabs.lookup ("games"), tabs.lookup ("sales") with
          | some g, some s => mergeGamesSales g s
          | _, _ => readCsvIfExists env.csv
    | .unparseable e => .error e
    | .absent => readCsvIfExists env.csv
  base.map stripCols

/-- Video-game app boundary (lines 69-72): load, and on an empty frame show
the "No data found" notice and `st.stop()` (halt); no handler for loader
exceptions. -/
def vgMain (env : VGEnv) : AppOutcome :=
  match vgLoadData env with
  | .error e => .crashed e
  | .ok df => if df.isEmpty then .halted else .ran df

/-! ### Second-stage (tab5) filter, video-game app lines 234-256 -/

/-- The Power-BI-style sidebar filter state: genre and platform selections
(empty when nothing selected or the column is absent) and the year range
slider (present only when a `Year` column exists). -/
structure Tab5Spec where
  genres : List Value
  platforms : List Value
  yearRange : Option (Rat × Rat)
  deriving DecidableEq

/-- Lines 250-256: `filtered = df.copy()` — the unfiltered canonical table
— then the `Genre`/`Platform` membership filters and the inclusive `Year`
range filter (missing or non-numeric years fail the range comparison). -/
def applyTab5 (df : Table) (spec : Tab5Spec) : Table :=
  let f1 := if spec.genres.isEmpty then df
    else rowFilter df (fun r => spec.genres.contains (getCell r ("Genre")))
  let f2 := if spec.platforms.isEmpty then f1
    else rowFilter f1 (fun r => spec.platforms.contains (getCell r ("Platform")))
  match spec.yearRange with
  | some lohi =>
    if df.cols.contains ("Year") then
      rowFilter f2 (fun r =>
        match getCell r ("Year") with
        | .num q => decide (lohi.1 ≤ q) && decide (q ≤ lohi.2)
        | _ => false)
    else f2
  | none => f2

/-- The observable products of one run of the video-game dashboard script:
the canonical table after the run, the sidebar-filtered table, and the
tab5 second-stage filtered table (line 250 starts again from `df`). -/
structure VGDashboard where
  canonical : Table
  sidebarFiltered : Table
  secondStage : Table
  deriving DecidableEq

/-- Sequential model of the script: the sidebar pass works on a copy of
`df` (line 93), the tab5 pass on a fresh copy of `df` (line 250); `df`
itself is never assigned again after loading. -/
def vgScript (df : Table) (spec : VGSpec) (tspec : Tab5Spec) : VGDashboard :=
  let filtered := applyVG df spec
  let filtered2 := applyTab5 df tspec
  ⟨df, filtered, filtered2⟩

/-! ### Business-question dispatch (video-game app, tab5, lines 304-389)

Each implemented question is an `elif question == ... and <column guard>`
branch; a matched question whose guard fails falls through to the final
`else`, which shows the "Visualization not available or missing columns"
notice. Column accesses inside a branch that were not covered by its guard
are modelled as `KeyError` via `Except`. -/

/-- Outcome of one question dispatch: a result table was rendered, the
"not available" notice was shown, nothing at all was rendered, or an
exception escaped. -/
inductive QResult where
  | ok (t : Table)
  | info
  | silent
  | err (e : String)
  deriving DecidableEq

/-- Column-subset selection `t[[c1, ..., ck]]`; a pandas `KeyError` when
any requested column is absent. -/
def selectColsE (t : Table) (cs : List String) : Except String Table :=
  if cs.all (fun c => t.cols.contains c) then
    .ok ⟨cs, t.rows.map (fun r => cs.map (fun c => (c, getCell r c)))⟩
  else .error ("KeyError")

/-- Package a fallible branch body as a dispatch outcome. -/
def toQ : Except String Table → QResult
  | .ok t => .ok t
  | .error e => .err e

/-- Question 1: `filtered.nlargest(10, 'Rating')[['Title', 'Rating']]`. -/
def topRatedGames (t : Table) : Except String Table :=
  (nlargestT t 10 ("Rating")).bind
    (fun top => selectColsE top [("Title" : String), ("Rating" : String)])

/-- `t.groupby(key)[vcol].mean()` as a key-ordered series; `KeyError` when
either column is absent. -/
def groupbyMeanSeriesE (t : Table) (key vcol : String) : Except String (List (Value × Option Rat)) :=
  if t.cols.contains key && t.cols.contains vcol then
    .ok ((groupKeys t key).map (fun k => (k, groupMean t key vcol k)))
  else .error ("KeyError")

/-- `Series.nlargest(n)`: drop missing values, stable descending sort,
first `n`. -/
def seriesNlargest (n : Nat) (l : List (Value × Option Rat)) : List (Value × Rat) :=
  (isortBy (fun a b : Value × Rat => decide (b.2 < a.2))
    (l.filterMap (fun kv => kv.2.map (fun q => (kv.1, q))))).take n

/-- Question 2: `filtered.groupby('Developer')['Rating'].mean().nlargest(10).reset_index()`. -/
def devAvgRatings (t : Table) : Except String Table :=
  (groupbyMeanSeriesE t ("Developer") ("Rating")).map (fun ser =>
    ⟨[("Developer" : String), ("Rating" : String)],
     (seriesNlargest 10 ser).map
       (fun kv => [(("Developer" : String), kv.1), (("Rating" : String), Value.num kv.2)])⟩)

/-- Question 3: `filtered['Genre'].value_counts().reset_index()` with
columns renamed to Genre/Count (counts descending, missing genres
excluded). -/
def genreCountsT (t : Table) : Table :=
  let ks := dedupFirst ((t.rows.map (fun r => getCell r ("Genre"))).filter (fun v => !(v == Value.null)))
  ⟨[("Genre" : String), ("Count" : String)],
   (isortBy (fun a b : Value × Nat => decide (b.2 < a.2))
      (ks.map (fun k => (k, groupSize t ("Genre") k)))).map
     (fun kv => [(("Genre" : String), kv.1), (("Count" : String), Value.num (kv.2 : Rat))])⟩

/-- Question 4: `filtered.nlargest(10, 'Backlogs')[['Title', 'Backlogs', 'Wishlist']]`. -/
def backlogVsWishlist (t : Table) : Except String Table :=
  (nlargestT t 10 ("Backlogs")).bind
    (fun top => selectColsE top [("Title" : String), ("Backlogs" : String), ("Wishlist" : String)])

/-- Question 5: `filtered.groupby('Year').size().reset_index(name='Count')`. -/
def releaseTrend (t : Table) : Table :=
  ⟨[("Year" : String), ("Count" : String)],
   (groupKeys t ("Year")).map
     (fun k => [(("Year" : String), k), (("Count" : String), Value.num (groupSize t ("Year") k : Rat))])⟩

/-- Question 7: `filtered.nlargest(10, 'Wishlist')[['Title', 'Wishlist']]`. -/
def topWishlisted (t : Table) : Except String Table :=
  (nlargestT t 10 ("Wishlist")).bind
    (fun top => selectColsE top [("Title" : String), ("Wishlist" : String)])

/-- Question 8: `filtered.groupby('Genre')['Plays'].mean().reset_index()`. -/
def avgPlaysPerGenre (t : Table) : Except String Table :=
  (groupbyMeanSeriesE t ("Genre") ("Plays")).map (fun ser =>
    ⟨[("Genre" : String), ("Plays" : String)],
     ser.map (fun kv =>
       [(("Genre" : String), kv.1),
        (("Plays" : String), match kv.2 with | some q => Value.num q | none => Value.null)])⟩)

/-- Question 9 body when region columns exist: per-region sums
(`filtered[region_cols].sum()`) presented as Region/Sales. -/
def regionSalesT (t : Table) (regionCols : List String) : Table :=
  ⟨[("Region" : String), ("Sales" : String)],
   regionCols.map (fun c => [(("Region" : String), Value.str c), (("Sales" : String), Value.num (sumColumn t c))])⟩

/-- Question 10: `filtered.nlargest(10, 'Global_Sales')[['Title', 'Global_Sales']]`. -/
def bestSellersGlobal (t : Table) : Except String Table :=
  (nlargestT t 10 ("Global_Sales")).bind
    (fun top => selectColsE top [("Title" : String), ("Global_Sales" : String)])

/-- Question 11: `filtered.groupby('Genre')['Global_Sales'].sum().reset_index().sort_values(..., ascending=False)`,
of which the chart shows `head(15)`. -/
def genreSalesSorted (t : Table) : Table :=
  let series := (groupKeys t ("Genre")).map
    (fun k => (k, groupSum t ("Genre") ("Global_Sales") k))
  ⟨[("Genre" : String), ("Global_Sales" : String)],
   ((isortBy (fun a b : Value × Rat => decide (b.2 < a.2)) series).take 15).map
     (fun kv => [(("Genre" : String), kv.1), (("Global_Sales" : String), Value.num kv.2)])⟩

/-- Pairs of numeric readings of two columns over the rows where both are
present (pandas pairwise-complete correlation input). -/
def corrPairs (t : Table) (a b : String) : List (Rat × Rat) :=
  t.rows.filterMap (fun r =>
    match toNum (getCell r a), toNum (getCell r b) with
    | some x, some y => some (x, y)
    | _, _ => none)

/-- Signed square of the Pearson correlation, an exact-arithmetic stand-in
for `r` (which needs a square root): same sign, same zeros, and NaN
(`null`) exactly when pandas gives NaN (fewer than two complete pairs or a
zero-variance column). -/
def corrStat (ps : List (Rat × Rat)) : Value :=
  if ps.length < 2 then Value.null
  else
    let n : Rat := (ps.length : Rat)
    let sx := (ps.map (fun p => p.1)).sum
    let sy := (ps.map (fun p => p.2)).sum
    let sxx := (ps.map (fun p => p.1 * p.1)).sum
    let syy := (ps.map (fun p => p.2 * p.2)).sum
    let sxy := (ps.map (fun p => p.1 * p.2)).sum
    let cov := n * sxy - sx * sy
    let vx := n * sxx - sx * sx
    let vy := n * syy - sy * sy
    if vx = 0 || vy = 0 then Value.null
    else if cov < 0 then Value.num (-(cov * cov / (vx * vy)))
    else Value.num (cov * cov / (vx * vy))

/-- Question 13: `filtered[['Wishlist', 'Backlogs', 'Rating']].corr()`. -/
def corrTable (t : Table) (cs : List String) : Table :=
  ⟨cs, cs.map (fun a => cs.map (fun b => (b, corrStat (corrPairs t a b))))⟩

/-- The question dispatch of tab5 (lines 304-389), a faithful transcription
of the `if`/`elif` chain: each branch fires only when its question matches
AND its guarded columns are present; questions from the selectbox without
an implemented branch, and matched questions with failing guards, reach the
final `else` notice (`info`). -/
def runQuestion (question : String) (filtered : Table) : QResult :=
  if question == "🌟 Top-rated games by user reviews" && filtered.cols.contains ("Rating") then
    toQ (topRatedGames filtered)
  else if question == "🧑‍🤝‍🧑 Developers with highest average ratings" && filtered.cols.contains ("Developer") then
    toQ (devAvgRatings filtered)
  else if question == "🧩 Most common genres" && filtered.cols.contains ("Genre") then
    QResult.ok (genreCountsT filtered)
  else if question == "⏳ Games with highest backlog vs wishlist" && (filtered.cols.contains ("Backlogs") && filtered.cols.contains ("Wishlist")) then
    toQ (backlogVsWishlist filtered)
  else if question == "🗓️ Game release trend across years" && filtered.cols.contains ("Year") then
    QResult.ok (releaseTrend filtered)
  else if question == "🔎 Distribution of user ratings" && filtered.cols.contains ("Rating") then
    toQ (selectColsE filtered [("Rating" : String)])
  else if question == "🧑 Top 10 most wishlisted games" && filtered.cols.contains ("Wishlist") then
    toQ (topWishlisted filtered)
  else if question == "🔬 Average number of plays per genre" && (filtered.cols.contains ("Genre") && filtered.cols.contains ("Plays")) then
    toQ (avgPlaysPerGenre filtered)
  else if question == "🌍 Region with highest game sales" then
    let regionCols := filtered.cols.filter (fun c => strEndsWith c ("_Sales"))
    if regionCols.isEmpty then QResult.silent else QResult.ok (regionSalesT filtered regionCols)
  else if question == "🔝 Top 10 best-selling games globally" && filtered.cols.contains ("Global_Sales") then
    toQ (bestSellersGlobal filtered)
  else if question == "🎮 Genres generating most global sales" && (filtered.cols.contains ("Genre") && filtered.cols.contains ("Global_Sales")) then
    QResult.ok (genreSalesSorted filtered)
  else if question == "🎯 Effect of user rating on global sales" && (filtered.cols.contains ("Rating") && filtered.cols.contains ("Global_Sales")) then
    toQ (selectColsE filtered [("Rating" : String), ("Global_Sales" : String), ("Genre" : String)])
  else if question == "🧠 Correlation between wishlist/backlogs and rating" && (filtered.cols.contains ("Wishlist") && (filtered.cols.contains ("Backlogs") && filtered.cols.contains ("Rating"))) then
    QResult.ok (corrTable filtered [("Wishlist" : String), ("Backlogs" : String), ("Rating" : String)])
  else QResult.info

/-- The Consumer Behavior tab body, lines 196-199: unconditional
`filtered['Wishlist'] = pd.to_numeric(filtered['Wishlist'], errors='coerce').fillna(0)`
and the same for `Plays`; a missing column is an uncaught `KeyError`. -/
def consumerTab (t : Table) : Except String Table :=
  if t.cols.contains ("Wishlist") then
    let t1 := mapColumn t ("Wishlist") (fun v => Value.num (fillna0 (coerceVal v)))
    if t1.cols.contains ("Plays") then
      .ok (mapColumn t1 ("Plays") (fun v => Value.num (fillna0 (coerceVal v))))
    else .error ("KeyError")
  else .error ("KeyError")

/-! ### Concrete instances used in the theorems below -/

/-- A one-column booking-status row. -/
def bsRow (s : String) : Row :=
  [(("Booking_Status" : String), Value.str s)]

/-- The spec scenario: ten rides, seven of them successful. -/
def olaScenarioTable : Table :=
  ⟨[("Booking_Status" : String)],
   [bsRow ("Success"), bsRow ("Success"), bsRow ("Success"), bsRow ("Success"),
    bsRow ("Success"), bsRow ("Success"), bsRow ("Success"),
    bsRow ("Cancelled"), bsRow ("Cancelled"), bsRow ("Cancelled")]⟩

/-- A one-column table whose single rating cell is a non-numeric string. -/
def ratingStrTable : Table :=
  ⟨[("Rating" : String)], [[(("Rating" : String), Value.str "abc")]]⟩

/-- The substring-filter scenario table: titles "Car Racer", "Sedan", and a
missing title. -/
def titleScenarioTable : Table :=
  ⟨[("Title" : String)],
   [[(("Title" : String), Value.str "Car Racer")],
    [(("Title" : String), Value.str "Sedan")],
    [(("Title" : String), Value.null)]]⟩

/-- A sidebar filter state that only searches for a title substring. -/
def searchOnlySpec (s : String) : VGSpec :=
  ⟨[], [], 0, s⟩

/-- A table that has a Rating column (so question 1's guard passes) but no
Title column. -/
def ratingOnlyTable : Table :=
  ⟨[("Rating" : String)], [[(("Rating" : String), Value.num 4)]]⟩

/-- A ride row with the three filterable dimensions. -/
def olaRideRow (vt pm bst : String) : Row :=
  [(("Vehicle_Type" : String), Value.str vt),
   (("Payment_Method" : String), Value.str pm),
   (("Booking_Status" : String), Value.str bst)]

/-- Two rides used for the membership-filter witness. -/
def olaRidesTable : Table :=
  ⟨[("Vehicle_Type" : String), ("Payment_Method" : String), ("Booking_Status" : String)],
   [olaRideRow ("Auto") ("UPI") ("Success"), olaRideRow ("Bike") ("Cash") ("Cancelled")]⟩

/-- The two-ride table after selecting vehicle type "Auto". -/
def olaRidesFiltered : Table :=
  ⟨[("Vehicle_Type" : String), ("Payment_Method" : String), ("Booking_Status" : String)],
   [olaRideRow ("Auto") ("UPI") ("Success")]⟩

/-- A platform/genre table for the video-game membership-filter witness. -/
def vgGenreTable : Table :=
  ⟨[("Platform" : String), ("Genre" : String)],
   [[(("Platform" : String), Value.str "PS"), (("Genre" : String), Value.str "Action")],
    [(("Platform" : String), Value.str "XB"), (("Genre" : String), Value.str "Racing")]]⟩

/-- A title/global-sales row. -/
def salesRow (t : String) (v : Value) : Row :=
  [(("Title" : String), Value.str t), (("Global_Sales" : String), v)]

/-- A three-row sales table (one missing sales value) for the Top-N
witness. -/
def vgSalesTable : Table :=
  ⟨[("Title" : String), ("Global_Sales" : String)],
   [salesRow ("A") (Value.num 1), salesRow ("B") (Value.num 3), salesRow ("C") Value.null]⟩

/-- A pickup-location/booking-value row. -/
def olaRevRow (loc : String) (v : Rat) : Row :=
  [(("Pickup_Location" : String), Value.str loc), (("Booking_Value" : String), Value.num v)]

/-- A three-ride revenue table over two pickup locations. -/
def olaRevTable : Table :=
  ⟨[("Pickup_Location" : String), ("Booking_Value" : String)],
   [olaRevRow ("X") 5, olaRevRow ("Y") 2, olaRevRow ("X") 1]⟩

/-- A two-row genre table for the second-stage-filter separation instance. -/
def tab5GenresTable : Table :=
  ⟨[("Genre" : String)],
   [[(("Genre" : String), Value.str "Action")], [(("Genre" : String), Value.str "Racing")]]⟩

/-- Sidebar state selecting only the genre "Action". -/
def actionOnlySpec : VGSpec :=
  ⟨[], [Value.str "Action"], 0, ""⟩

/-- A tab5 filter state with nothing selected. -/
def emptyTab5Spec : Tab5Spec :=
  ⟨[], [], none⟩

/-! ### Theorems for the claims -/

/-- Membership characterisation of one `isin` filter stage: when the stage
succeeds, a row is in the output iff it is in the input and, when a
selection is active, its dimension cell is among the selection. -/
theorem isinStage_mem (t out : Table) (c : String) (sel : List Value)
    (h : isinStage t c sel = Except.ok out) (r : Row) :
    r ∈ out.rows ↔ r ∈ t.rows ∧ (sel ≠ [] → getCell r c ∈ sel) := by
  unfold isinStage at h
  split at h
  · next hempty =>
    obtain rfl : t = out := Except.ok.inj h
    have hnil : sel = [] := List.isEmpty_iff.mp hempty
    subst hnil
    simp
  · next hempty =>
    split at h
    · obtain rfl : rowFilter t (fun r => sel.contains (getCell r c)) = out := Except.ok.inj h
      have hne : sel ≠ [] := fun hn => hempty (by simp [hn])
      simp [rowFilter, List.mem_filter, hne]
    · simp at h

/-- C4: on a zero-row filtered table the success-rate KPI is the guarded 0
(not a division error), and the monetary sums (ride-hailing total revenue,
video-game total global sales) are 0 (not missing); on the ten-row scenario
table with seven "Success" rows the success rate evaluates to 70. -/
theorem kpi_zero_rows_and_success_scenario :
    (∀ cols : List String, successRate ⟨cols, []⟩ = 0)
    ∧ (∀ cols : List String, totalRevenue ⟨cols, []⟩ = 0)
    ∧ (∀ cols : List String, vgTotalSales ⟨cols, []⟩ = 0)
    ∧ successRate olaScenarioTable = 70 := by
  refine ⟨fun _ => rfl, fun _ => rfl, fun cols => ?_, ?_⟩
  · unfold vgTotalSales
    split
    · split <;> rfl
    · rfl
  · have h7 : successRides olaScenarioTable = 7 := by decide
    have h10 : totalRides olaScenarioTable = 10 := rfl
    norm_num [successRate, h7, h10, pyRound2, halfEven]

/-- C10: the average-fare KPI over a zero-row table is the mean of an empty
column, a missing value (NaN, modelled `none`) — not 0 and not an error —
in contrast with the success rate, whose zero-row guard yields 0. -/
theorem avg_fare_empty_is_nan :
    (∀ cols : List String, avgFare ⟨cols, []⟩ = none)
    ∧ avgFare ⟨[("Booking_Value" : String)], []⟩ ≠ some 0
    ∧ successRate ⟨[("Booking_Value" : String)], []⟩ = 0 := by
  exact ⟨fun _ => rfl, by decide, rfl⟩

/-- C8 counterexample: the ride-hailing loader has no fallback — with its
CSV missing, `pd.read_csv` raises an uncaught `FileNotFoundError` and the
app crashes instead of yielding an empty table and halting with a notice. -/
theorem ola_loader_missing_file_crashes :
    olaMain Source.absent = AppOutcome.crashed ("FileNotFoundError")
    ∧ olaMain Source.absent ≠ AppOutcome.halted := by
  exact ⟨rfl, by decide⟩

/-- C8 amended: the empty-table-and-halt behaviour covers exactly the
missing-source cases of the video-game app: with no database and no CSV
(or a database with none of the recognised tables and no CSV) the loader
yields the explicitly empty table and the app halts at the "No data
found" notice. A source that exists but fails to parse is not covered by
the fallback: an unparseable CSV (e.g. `EmptyDataError` on a zero-byte
file) or an unreadable database crashes the video-game app uncaught; and
the ride-hailing loader, which has no fallback at all, crashes on a
missing or unparseable CSV. -/
theorem loader_no_source_outcomes :
    vgLoadData ⟨Source.absent, Source.absent⟩ = Except.ok ⟨[], []⟩
    ∧ vgMain ⟨Source.absent, Source.absent⟩ = AppOutcome.halted
    ∧ vgLoadData ⟨Source.parsed [], Source.absent⟩ = Except.ok ⟨[], []⟩
    ∧ vgMain ⟨Source.parsed [], Source.absent⟩ = AppOutcome.halted
    ∧ (∀ e, vgMain ⟨Source.absent, Source.unparseable e⟩ = AppOutcome.crashed e)
    ∧ (∀ e csvf, vgMain ⟨Source.unparseable e, csvf⟩ = AppOutcome.crashed e)
    ∧ olaMain Source.absent = AppOutcome.crashed ("FileNotFoundError")
    ∧ (∀ e, olaMain (Source.unparseable e) = AppOutcome.crashed e) := by
  exact ⟨rfl, rfl, rfl, rfl, fun e => rfl, fun e csvf => rfl, rfl, fun e => rfl⟩

/-- C6 (the claim is right, the code slips): the dispatch's per-question
column guards omit some columns the branch then uses, so a missing
required column can raise instead of producing the notice. Question 1
guards only `Rating` but then selects `['Title', 'Rating']`: on a table
with `Rating` and no `Title` it raises `KeyError`; the Consumer Behavior
tab coerces `Wishlist` with no guard at all and raises when it is absent.
The guarded cases do produce the notice (`info`), as the claim intends. -/
theorem question_dispatch_unguarded_column_raises :
    runQuestion ("🌟 Top-rated games by user reviews") ratingOnlyTable = QResult.err ("KeyError")
    ∧ consumerTab ⟨[("Plays" : String)], []⟩ = Except.error ("KeyError")
    ∧ runQuestion ("🌟 Top-rated games by user reviews") ⟨[("Genre" : String)], []⟩ = QResult.info
    ∧ runQuestion ("🧑‍🤝‍🧑 Developers with highest average ratings") ⟨[("Rating" : String)], []⟩ = QResult.info
    ∧ runQuestion ("🕹️ Best-selling platforms") ratingOnlyTable = QResult.info
    ∧ runQuestion ("🌍 Region with highest game sales") ratingOnlyTable = QResult.silent := by
  refine ⟨by decide, rfl, by decide, by decide, by decide, by decide⟩

/-- C1 counterexample: with every predicate empty (no selections, slider at
0.0, empty search) the video-game filter pass is not the identity — when a
rating column resolves, line 99 coerces it with `pd.to_numeric`, so a
non-numeric rating cell ("abc") is rewritten to missing even though every
row survives. -/
theorem empty_spec_filter_rewrites_rating_column :
    applyVG ratingStrTable emptyVGSpec ≠ ratingStrTable
    ∧ applyVG ratingStrTable emptyVGSpec =
        ⟨[("Rating" : String)], [[(("Rating" : String), Value.null)]]⟩ := by
  exact ⟨by decide, by decide⟩

/-- C1 amended: with all-empty predicates the ride-hailing filter pass is
the identity unconditionally; the video-game filter pass is the identity
whenever no rating column resolves, and also whenever every cell of the
resolved rating column is fixed by numeric coercion and reads as a
non-negative number (so the `fillna(0) >= 0.0` threshold keeps its row).
Only the rating-coercion step (line 99) and its threshold can deviate. -/
theorem empty_spec_filter_identity_cases :
    (∀ df : Table, olaFilter df [] [] [] = Except.ok df)
    ∧ (∀ df : Table, ratingCol df.cols = none → applyVG df emptyVGSpec = df)
    ∧ (∀ (df : Table) (c : String), ratingCol df.cols = some c →
        (∀ r ∈ df.rows, ∀ kv ∈ r, kv.1 = c → coerceVal kv.2 = kv.2) →
        (∀ r ∈ df.rows, 0 ≤ fillna0 (getCell r c)) →
        applyVG df emptyVGSpec = df) := by
  refine ⟨fun df => rfl, ?_, ?_⟩
  · intro df h
    unfold applyVG
    rw [h]
    rcases hp : platformCol df.cols <;> rcases hg : genreCol df.cols <;>
      rcases ht : titleCol df.cols <;> rfl
  · intro df c h hfix hpos
    have hco : coerceCol df c = df := by
      have hrows : df.rows.map
          (fun r => r.map (fun kv => if kv.1 = c then (kv.1, coerceVal kv.2) else kv)) = df.rows := by
        have hmap : ∀ r ∈ df.rows,
            r.map (fun kv => if kv.1 = c then (kv.1, coerceVal kv.2) else kv) = r := by
          intro r hr
          have hentry : ∀ kv ∈ r,
              (if kv.1 = c then (kv.1, coerceVal kv.2) else kv) = kv := by
            intro kv hkv
            by_cases hk : kv.1 = c
            · rw [if_pos hk, hfix r hr kv hkv hk]
            · rw [if_neg hk]
          calc r.map (fun kv => if kv.1 = c then (kv.1, coerceVal kv.2) else kv)
              = r.map (fun kv => kv) := List.map_congr_left hentry
            _ = r := by simp
        calc df.rows.map (fun r => r.map (fun kv => if kv.1 = c then (kv.1, coerceVal kv.2) else kv))
            = df.rows.map (fun r => r) := List.map_congr_left hmap
          _ = df.rows := by simp
      show Table.mk df.cols _ = df
      rw [hrows]
    have hfil : df.rows.filter
        (fun r => decide ((0 : Rat) ≤ fillna0 (getCell r c))) = df.rows := by
      refine List.filter_eq_self.mpr (fun r hr => decide_eq_true ?_)
      exact hpos r hr
    unfold applyVG
    rw [h]
    rcases hp : platformCol df.cols <;> rcases hg : genreCol df.cols <;>
      rcases ht : titleCol df.cols <;>
      simp only [emptyVGSpec, beq_self_eq_true, rowFilter, hco, hfil]

/-- Witness for the amended C1 theorem at a concrete table with a numeric
rating column. -/
theorem empty_spec_filter_identity_cases_witness :
    applyVG ⟨[("Rating" : String)], [[(("Rating" : String), Value.num 4)]]⟩ emptyVGSpec
      = ⟨[("Rating" : String)], [[(("Rating" : String), Value.num 4)]]⟩ :=
  empty_spec_filter_identity_cases.2.2
    ⟨[("Rating" : String)], [[(("Rating" : String), Value.num 4)]]⟩ ("Rating")
    (by decide) (by decide) (by decide)

/-- C5 counterexample: a missing title is rendered "nan" by `.astype(str)`
before matching (line 102), so with the search string "nan" the null-title
row matches and is retained — null titles are not always non-matching. -/
theorem null_title_matches_nan_search :
    (applyVG titleScenarioTable (searchOnlySpec ("nan"))).rows
      = [[(("Title" : String), Value.null)]] := by
  decide

/-- C5 amended: with only the search filter active (a title column
resolved, no rating column, non-empty search) and a search string free of
regular-expression metacharacters (line 102's `str.contains` treats its
pattern as a regex, so e.g. "." matches every title and "(" raises
`re.error`; such patterns are outside this characterisation), the retained
rows are exactly those whose title, rendered by `.astype(str)` (missing
titles render as "nan"), contains the search string case-insensitively.
Rows with a null title therefore never match exactly when the search
string does not occur in "nan"; in particular searching "car" over titles
"Car Racer", "Sedan", null returns exactly the "Car Racer" row. -/
theorem substring_filter_characterization :
    (∀ (df : Table) (c s : String),
        titleCol df.cols = some c → ratingCol df.cols = none → s ≠ "" →
        regexFree s = true →
        ∀ r, r ∈ (applyVG df (searchOnlySpec s)).rows ↔
          r ∈ df.rows ∧ containsCI (pyStr (getCell r c)) s = true)
    ∧ (∀ (df : Table) (c s : String),
        titleCol df.cols = some c → ratingCol df.cols = none → s ≠ "" →
        regexFree s = true →
        containsCI ("nan") s = false →
        ∀ r ∈ df.rows, getCell r c = Value.null →
          r ∉ (applyVG df (searchOnlySpec s)).rows)
    ∧ (applyVG titleScenarioTable (searchOnlySpec ("car"))).rows
        = [[(("Title" : String), Value.str "Car Racer")]] := by
  have main : ∀ (df : Table) (c s : String),
      titleCol df.cols = some c → ratingCol df.cols = none → s ≠ "" →
      regexFree s = true →
      ∀ r, r ∈ (applyVG df (searchOnlySpec s)).rows ↔
        r ∈ df.rows ∧ containsCI (pyStr (getCell r c)) s = true := by
    intro df c s ht hr hs _hrx r
    have hs' : (s == "") = false := beq_eq_false_iff_ne.mpr hs
    unfold applyVG
    rw [hr, ht]
    rcases hp : platformCol df.cols <;> rcases hg : genreCol df.cols <;>
      simp [searchOnlySpec, hs', rowFilter, List.mem_filter]
  refine ⟨main, ?_, by decide⟩
  intro df c s ht hr hs hrx hnan r hrow hnull hmem
  have hchar := (main df c s ht hr hs hrx r).mp hmem
  rw [hnull] at hchar
  exact absurd hchar.2 (by simp [pyStr, hnan])

/-- Witness for the amended C5 theorem: the "Car Racer" row is retained by
the (metacharacter-free) "car" search on the scenario table. -/
theorem substring_filter_characterization_witness :
    [(("Title" : String), Value.str "Car Racer")]
      ∈ (applyVG titleScenarioTable (searchOnlySpec ("car"))).rows :=
  (substring_filter_characterization.1 titleScenarioTable ("Title") ("car")
    (by decide) (by decide) (by decide) (by decide) _).mpr ⟨by decide, by decide⟩

/-- C2: membership (multiselect) filters are sound and complete, and
several active ones conjoin. Ride-hailing app: a row is in the filtered
output iff it is an input row whose vehicle type, payment method and
booking status each lie in the corresponding selection whenever that
selection is non-empty. Video-game app (with mapped platform and genre
columns, no rating column, empty search — so only the membership stages
run): a row survives iff it is an input row passing both active
membership filters. -/
theorem membership_filter_sound_complete :
    (∀ (df : Table) (v p s : List Value) (out : Table),
        olaFilter df v p s = Except.ok out →
        ∀ r, r ∈ out.rows ↔ r ∈ df.rows
          ∧ (v ≠ [] → getCell r ("Vehicle_Type") ∈ v)
          ∧ (p ≠ [] → getCell r ("Payment_Method") ∈ p)
          ∧ (s ≠ [] → getCell r ("Booking_Status") ∈ s))
    ∧ (∀ (df : Table) (spec : VGSpec) (cp cg : String),
        platformCol df.cols = some cp → genreCol df.cols = some cg →
        ratingCol df.cols = none → spec.search = "" →
        ∀ r, r ∈ (applyVG df spec).rows ↔ r ∈ df.rows
          ∧ (spec.platforms ≠ [] → getCell r cp ∈ spec.platforms)
          ∧ (spec.genres ≠ [] → getCell r cg ∈ spec.genres)) := by
  constructor
  · intro df v p s out h r
    unfold olaFilter at h
    cases h1 : isinStage df ("Vehicle_Type") v with
    | error e => rw [h1] at h; simp [Except.bind] at h
    | ok t1 =>
      rw [h1] at h
      simp only [Except.bind] at h
      cases h2 : isinStage t1 ("Payment_Method") p with
      | error e => rw [h2] at h; simp [Except.bind] at h
      | ok t2 =>
        rw [h2] at h
        simp only [Except.bind] at h
        have i1 := isinStage_mem df t1 ("Vehicle_Type") v h1 r
        have i2 := isinStage_mem t1 t2 ("Payment_Method") p h2 r
        have i3 := isinStage_mem t2 out ("Booking_Status") s h r
        rw [i3, i2, i1]
        tauto
  · intro df spec cp cg hp hg hrc hsearch r
    unfold applyVG
    rw [hp, hg, hrc, hsearch]
    rcases hpl : spec.platforms with _ | ⟨a, as⟩ <;>
      rcases hgl : spec.genres with _ | ⟨b, bs⟩ <;>
      rcases ht : titleCol df.cols <;>
      simp [rowFilter, List.mem_filter] <;> tauto

/-- Witness for the membership-filter theorem: selecting vehicle type
"Auto" keeps exactly the Auto ride, and selecting genre "Action" keeps the
Action row. -/
theorem membership_filter_sound_complete_witness :
    olaRideRow ("Auto") ("UPI") ("Success") ∈ olaRidesFiltered.rows
    ∧ [(("Platform" : String), Value.str "PS"), (("Genre" : String), Value.str "Action")]
        ∈ (applyVG vgGenreTable actionOnlySpec).rows := by
  constructor
  · exact (membership_filter_sound_complete.1 olaRidesTable [Value.str "Auto"] [] []
      olaRidesFiltered rfl (olaRideRow ("Auto") ("UPI") ("Success"))).mpr
      ⟨by decide, fun _ => by decide, fun h => absurd rfl h, fun h => absurd rfl h⟩
  · exact (membership_filter_sound_complete.2 vgGenreTable actionOnlySpec
      ("Platform") ("Genre") (by decide) (by decide) (by decide) rfl _).mpr
      ⟨by decide, fun h => absurd rfl h, fun _ => by decide⟩

/-- C7: each resolver role is exactly the first column, in original order,
whose header satisfies the role's fixed case-insensitive predicate
(first group of equivalences); it is unmapped exactly when no header
satisfies the predicate (second group); and resolution depends only on the
header strings, so two tables with equal headers resolve identically. -/
theorem resolver_first_match_characterization :
    (∀ (cols : List String) (c : String),
        platformCol cols = some c ↔
          platformPred c ∧ ∃ i h, cols[i] = c ∧ ∀ j : Nat, (hj : j < i) → !platformPred cols[j])
    ∧ (∀ (cols : List String) (c : String),
        genreCol cols = some c ↔
          genrePred c ∧ ∃ i h, cols[i] = c ∧ ∀ j : Nat, (hj : j < i) → !genrePred cols[j])
    ∧ (∀ (cols : List String) (c : String),
        titleCol cols = some c ↔
          titlePred c ∧ ∃ i h, cols[i] = c ∧ ∀ j : Nat, (hj : j < i) → !titlePred cols[j])
    ∧ (∀ (cols : List String) (c : String),
        ratingCol cols = some c ↔
          ratingPred c ∧ ∃ i h, cols[i] = c ∧ ∀ j : Nat, (hj : j < i) → !ratingPred cols[j])
    ∧ (∀ (cols : List String) (c : String),
        globalSalesCol cols = some c ↔
          globalSalesPred c ∧ ∃ i h, cols[i] = c ∧ ∀ j : Nat, (hj : j < i) → !globalSalesPred cols[j])
    ∧ (∀ (cols : List String) (c : String),
        yearCol cols = some c ↔
          yearPred c ∧ ∃ i h, cols[i] = c ∧ ∀ j : Nat, (hj : j < i) → !yearPred cols[j])
    ∧ (∀ cols : List String, platformCol cols = none ↔ ∀ c ∈ cols, platformPred c = false)
    ∧ (∀ cols : List String, genreCol cols = none ↔ ∀ c ∈ cols, genrePred c = false)
    ∧ (∀ cols : List String, titleCol cols = none ↔ ∀ c ∈ cols, titlePred c = false)
    ∧ (∀ cols : List String, ratingCol cols = none ↔ ∀ c ∈ cols, ratingPred c = false)
    ∧ (∀ cols : List String, globalSalesCol cols = none ↔ ∀ c ∈ cols, globalSalesPred c = false)
    ∧ (∀ cols : List String, yearCol cols = none ↔ ∀ c ∈ cols, yearPred c = false)
    ∧ (∀ t1 t2 : Table, t1.cols = t2.cols → resolveRoles t1.cols = resolveRoles t2.cols) := by
  refine ⟨?_, ?_, ?_, ?_, ?_, ?_, ?_, ?_, ?_, ?_, ?_, ?_, ?_⟩
  · intro cols c; exact List.find?_eq_some_iff_getElem
  · intro cols c; exact List.find?_eq_some_iff_getElem
  · intro cols c; exact List.find?_eq_some_iff_getElem
  · intro cols c; exact List.find?_eq_some_iff_getElem
  · intro cols c; exact List.find?_eq_some_iff_getElem
  · intro cols c; exact List.find?_eq_some_iff_getElem
  · intro cols; simp [platformCol, List.find?_eq_none]
  · intro cols; simp [genreCol, List.find?_eq_none]
  · intro cols; simp [titleCol, List.find?_eq_none]
  · intro cols; simp [ratingCol, List.find?_eq_none]
  · intro cols; simp [globalSalesCol, List.find?_eq_none]
  · intro cols; simp [yearCol, List.find?_eq_none]
  · intro t1 t2 h; rw [h]

/-- Witness for the resolver theorem: "Platform X" is the first of two
platform-matching headers, and resolution of equal header lists agrees. -/
theorem resolver_first_match_characterization_witness :
    platformCol [("Platform X" : String), ("platformY" : String)] = some ("Platform X")
    ∧ resolveRoles vgGenreTable.cols = resolveRoles vgGenreTable.cols := by
  constructor
  · exact (resolver_first_match_characterization.1
      [("Platform X" : String), ("platformY" : String)] ("Platform X")).mpr
      ⟨by decide, 0, by decide, rfl, fun j hj => absurd hj (Nat.not_lt_zero j)⟩
  · exact resolver_first_match_characterization.2.2.2.2.2.2.2.2.2.2.2.2
      vgGenreTable vgGenreTable rfl

/-- C9: one run of the video-game dashboard leaves the canonical table
exactly as loaded (all passes work on copies), and the tab5 second-stage
filter is applied to the unfiltered canonical table: its output is
`applyTab5 df tspec`, independent of the sidebar filter state; moreover, at
a concrete instance, composing the two passes would give a different
(smaller) table than the script's second stage actually produces, so the
two passes are genuinely not composed. -/
theorem second_stage_filters_canonical_table :
    (∀ (df : Table) (spec : VGSpec) (tspec : Tab5Spec),
        (vgScript df spec tspec).canonical = df
        ∧ (vgScript df spec tspec).secondStage = applyTab5 df tspec
        ∧ ∀ spec2 : VGSpec,
            (vgScript df spec tspec).secondStage = (vgScript df spec2 tspec).secondStage)
    ∧ (vgScript tab5GenresTable actionOnlySpec emptyTab5Spec).secondStage
        ≠ applyTab5 (applyVG tab5GenresTable actionOnlySpec) emptyTab5Spec := by
  exact ⟨fun df spec tspec => ⟨rfl, rfl, fun spec2 => rfl⟩, by decide⟩

/-! ### Stable-sort lemmas for the Top-N claims -/

/-- Inserting adds one to the length. -/
theorem length_insertBy (b : α → α → Bool) (x : α) (l : List α) :
    (insertBy b x l).length = l.length + 1 := by
  induction l with
  | nil => rfl
  | cons y ys ih =>
    unfold insertBy
    split
    · simp [ih]
    · simp

/-- Sorting preserves the length. -/
theorem length_isortBy (b : α → α → Bool) (l : List α) :
    (isortBy b l).length = l.length := by
  induction l with
  | nil => rfl
  | cons x xs ih => simp [isortBy, length_insertBy, ih]

/-- Membership in an insertion. -/
theorem mem_insertBy (b : α → α → Bool) (x a : α) (l : List α) :
    a ∈ insertBy b x l ↔ a = x ∨ a ∈ l := by
  induction l with
  | nil => simp [insertBy]
  | cons y ys ih =>
    unfold insertBy
    split <;> (simp [ih]; try tauto)

/-- Inserting into a list that is pairwise "later never strictly before
earlier" preserves that shape, when `b` is asymmetric and
negatively transitive. -/
theorem pairwise_insertBy (b : α → α → Bool)
    (hasym : ∀ u v, b u v = true → b v u = false)
    (hneg : ∀ u v w, b u v = false → b v w = false → b u w = false)
    (x : α) (l : List α)
    (hl : l.Pairwise (fun u v => b v u = false)) :
    (insertBy b x l).Pairwise (fun u v => b v u = false) := by
  induction l with
  | nil => simp [insertBy]
  | cons y ys ih =>
    rcases hl with _ | ⟨hy, hys⟩
    unfold insertBy
    split
    · next hbyx =>
      refine List.Pairwise.cons ?_ (ih hys)
      intro z hz
      rw [mem_insertBy] at hz
      rcases hz with rfl | hz
      · exact hasym y z hbyx
      · exact hy z hz
    · next hbyx =>
      have hbyx' : b y x = false := by
        cases hxy : b y x
        · rfl
        · exact absurd hxy hbyx
      refine List.Pairwise.cons ?_ (List.Pairwise.cons hy hys)
      intro z hz
      rcases List.mem_cons.mp hz with rfl | hz2
      · exact hbyx'
      · exact hneg z y x (hy z hz2) hbyx'

/-- The sort is pairwise "later never strictly before earlier" — i.e.
sorted (descending, for the numeric precedence used below). -/
theorem pairwise_isortBy (b : α → α → Bool)
    (hasym : ∀ u v, b u v = true → b v u = false)
    (hneg : ∀ u v w, b u v = false → b v w = false → b u w = false)
    (l : List α) :
    (isortBy b l).Pairwise (fun u v => b v u = false) := by
  induction l with
  | nil => simp [isortBy]
  | cons x xs ih => exact pairwise_insertBy b hasym hneg x _ ih

/-- Elements whose key makes them mutually unordered under `b` are never
reordered by an insertion (the stability kernel). -/
theorem filter_insertBy (b : α → α → Bool) (p : α → Bool)
    (hcomp : ∀ u v, p u = true → p v = true → b u v = false)
    (x : α) (l : List α) :
    (insertBy b x l).filter p = if p x then x :: l.filter p else l.filter p := by
  induction l with
  | nil => cases hpx : p x <;> simp [insertBy, List.filter_cons, hpx]
  | cons y ys ih =>
    unfold insertBy
    split
    · next hbyx =>
      by_cases hpy : p y = true
      · by_cases hpx : p x = true
        · exact absurd hbyx (by simp [hcomp y x hpy hpx])
        · simp only [Bool.not_eq_true] at hpx
          simp [List.filter_cons, hpy, hpx, ih]
      · simp only [Bool.not_eq_true] at hpy
        simp [List.filter_cons, hpy, ih]
    · simp [List.filter_cons]

/-- Stability of the sort: the subsequence of elements with any fixed key
is unchanged. -/
theorem filter_isortBy (b : α → α → Bool) (p : α → Bool)
    (hcomp : ∀ u v, p u = true → p v = true → b u v = false)
    (l : List α) :
    (isortBy b l).filter p = l.filter p := by
  induction l with
  | nil => rfl
  | cons x xs ih =>
    unfold isortBy
    rw [filter_insertBy b p hcomp x _]
    by_cases hpx : p x = true
    · simp [List.filter_cons, hpx, ih]
    · simp only [Bool.not_eq_true] at hpx
      simp [List.filter_cons, hpx, ih]

/-- The descending numeric precedence is asymmetric. -/
theorem numBefore_asym (u v : Option Rat) :
    numBefore u v = true → numBefore v u = false := by
  cases u <;> cases v <;> simp [numBefore]
  exact fun h => le_of_lt h

/-- The descending numeric precedence is negatively transitive. -/
theorem numBefore_negtrans (u v w : Option Rat) :
    numBefore u v = false → numBefore v w = false → numBefore u w = false := by
  cases u <;> cases v <;> cases w <;> simp [numBefore]
  intro h1 h2
  exact le_trans h1 h2

/-- Row precedence on a column is asymmetric. -/
theorem rowBefore_asym (c : String) :
    ∀ u v : Row, rowBefore c u v = true → rowBefore c v u = false :=
  fun _ _ h => numBefore_asym _ _ h

/-- Row precedence on a column is negatively transitive. -/
theorem rowBefore_negtrans (c : String) :
    ∀ u v w : Row, rowBefore c u v = false → rowBefore c v w = false →
      rowBefore c u w = false :=
  fun _ _ _ h1 h2 => numBefore_negtrans _ _ _ h1 h2

/-- Rows of equal sort rank are mutually unordered. -/
theorem rowBefore_rank_eq (c : String) (k : Option Rat) :
    ∀ u v : Row, decide (rankOf (getCell u c) = k) = true →
      decide (rankOf (getCell v c) = k) = true → rowBefore c u v = false := by
  intro u v hu hv
  rw [decide_eq_true_eq] at hu hv
  unfold rowBefore
  rw [hu, hv]
  cases k <;> simp [numBefore]

/-- The descending precedence on key/sum pairs is asymmetric. -/
theorem pairBefore_asym (u v : Value × Rat) :
    decide (v.2 < u.2) = true → decide (u.2 < v.2) = false := by
  simp
  exact fun h => le_of_lt h

/-- The descending precedence on key/sum pairs is negatively transitive. -/
theorem pairBefore_negtrans (u v w : Value × Rat) :
    decide (v.2 < u.2) = false → decide (w.2 < v.2) = false →
      decide (w.2 < u.2) = false := by
  simp
  intro h1 h2
  exact le_trans h1 h2

/-- Insertion is a permutation of consing. -/
theorem perm_insertBy (b : α → α → Bool) (x : α) (l : List α) :
    (insertBy b x l).Perm (x :: l) := by
  induction l with
  | nil => exact List.Perm.refl _
  | cons y ys ih =>
    unfold insertBy
    split
    · exact (ih.cons y).trans (List.Perm.swap x y ys)
    · exact List.Perm.refl _

/-- Sorting permutes the input. -/
theorem perm_isortBy (b : α → α → Bool) (l : List α) :
    (isortBy b l).Perm l := by
  induction l with
  | nil => exact List.Perm.refl _
  | cons x xs ih => exact (perm_insertBy b x _).trans (ih.cons x)

/-- Key/sum pairs with equal sums are mutually unordered. -/
theorem pairBefore_val_eq (q : Rat) :
    ∀ u v : Value × Rat, decide (u.2 = q) = true → decide (v.2 = q) = true →
      decide (v.2 < u.2) = false := by
  intro u v hu hv
  rw [decide_eq_true_eq] at hu hv
  simp [hu, hv]

/-- C3 counterexample: the grouped Top-N's length is the number of groups,
not min(N, filtered row count). On a filtered table of three rides over
two pickup locations, `revenue_by_pickup` returns two rows, while the
claim demands min(10, 3) = 3. -/
theorem grouped_topn_length_counterexample :
    revenueByPickup olaRevTable = Except.ok
      (Table.mk [("Pickup_Location" : String), ("Revenue" : String)]
        [[(("Pickup_Location" : String), Value.str "X"), (("Revenue" : String), Value.num 6)],
         [(("Pickup_Location" : String), Value.str "Y"), (("Revenue" : String), Value.num 2)]])
    ∧ (Table.mk [("Pickup_Location" : String), ("Revenue" : String)]
        [[(("Pickup_Location" : String), Value.str "X"), (("Revenue" : String), Value.num 6)],
         [(("Pickup_Location" : String), Value.str "Y"), (("Revenue" : String), Value.num 2)]]).rows.length
        ≠ min 10 olaRevTable.rows.length := by
  exact ⟨by with_unfolding_all rfl, by decide⟩

/-- C3 amended: Top-N properties the code guarantees. Video-game "Top
Global Sellers" (`sort_values(ascending=False).head(10)`): the result is
the first ten rows of a descending sort, its length is
min(10, filtered row count), it is sorted descending by the metric
(missing metrics last: no later row strictly precedes an earlier one), the
sorted rows are a permutation of the input rows, and rerunning on the same
frozen input is deterministic — the tie order among equal metrics is
pandas' unspecified default-quicksort order, so no property of it is
claimed. Ride-hailing `revenue_by_pickup` (group sums,
`Series.nlargest(10)`): length = min(10, number of groups) — not the
filtered row count — sorted descending by revenue, with ties among equal
sums kept in group order (`nlargest` keep="first" is documented stable),
and deterministic. -/
theorem topn_length_sorted_deterministic :
    (∀ (t : Table) (c : String), globalSalesCol t.cols = some c →
        topGlobalSellers t = some (headT 10 (sortValuesDesc t c))
        ∧ (headT 10 (sortValuesDesc t c)).rows.length = min 10 t.rows.length
        ∧ (headT 10 (sortValuesDesc t c)).rows.Pairwise
            (fun r1 r2 => rowBefore c r2 r1 = false)
        ∧ (sortValuesDesc t c).rows.Perm t.rows
        ∧ topGlobalSellers t = topGlobalSellers t)
    ∧ (∀ (df out : Table), revenueByPickup df = Except.ok out →
        out.rows.length = min 10 (groupKeys df ("Pickup_Location")).length
        ∧ out.rows.Pairwise (fun r1 r2 => rowBefore ("Revenue") r2 r1 = false)
        ∧ (∀ q : Rat,
            ((isortBy (fun a b : Value × Rat => decide (b.2 < a.2))
                ((groupKeys df ("Pickup_Location")).map
                  (fun k => (k, groupSum df ("Pickup_Location") ("Booking_Value") k)))).filter
              (fun kv => decide (kv.2 = q)))
              = ((groupKeys df ("Pickup_Location")).map
                  (fun k => (k, groupSum df ("Pickup_Location") ("Booking_Value") k))).filter
                (fun kv => decide (kv.2 = q)))
        ∧ revenueByPickup df = revenueByPickup df) := by
  constructor
  · intro t c h
    refine ⟨?_, ?_, ?_, ?_, rfl⟩
    · unfold topGlobalSellers
      rw [h]
    · show ((isortBy (rowBefore c) t.rows).take 10).length = min 10 t.rows.length
      rw [List.length_take, length_isortBy]
    · exact (pairwise_isortBy (rowBefore c) (rowBefore_asym c) (rowBefore_negtrans c)
        t.rows).sublist (List.take_sublist 10 _)
    · exact perm_isortBy (rowBefore c) t.rows
  · intro df out h
    unfold revenueByPickup at h
    split at h
    · obtain rfl := Except.ok.inj h
      refine ⟨?_, ?_, ?_, rfl⟩
      · simp [List.length_take, length_isortBy]
      · refine List.Pairwise.map _ ?_
          ((pairwise_isortBy (fun a b : Value × Rat => decide (b.2 < a.2))
            pairBefore_asym pairBefore_negtrans _).sublist (List.take_sublist 10 _))
        intro a b hab
        exact hab
      · intro q
        exact filter_isortBy (fun a b : Value × Rat => decide (b.2 < a.2)) _
          (pairBefore_val_eq q) _
    · simp at h

/-- Witness for the Top-N theorem at concrete tables. -/
theorem topn_length_sorted_deterministic_witness :
    (headT 10 (sortValuesDesc vgSalesTable ("Global_Sales"))).rows.length
        = min 10 vgSalesTable.rows.length
    ∧ (Table.mk [("Pickup_Location" : String), ("Revenue" : String)]
        [[(("Pickup_Location" : String), Value.str "X"), (("Revenue" : String), Value.num 6)],
         [(("Pickup_Location" : String), Value.str "Y"), (("Revenue" : String), Value.num 2)]]).rows.length
        = min 10 (groupKeys olaRevTable ("Pickup_Location")).length := by
  constructor
  · exact (topn_length_sorted_deterministic.1 vgSalesTable ("Global_Sales") (by decide)).2.1
  · exact (topn_length_sorted_deterministic.2 olaRevTable _ (by with_unfolding_all rfl)).1
